import Mathlib

/-!
Verification of the scene-segmentation core of the youdescribe-sfsu/video-pipeline
repository.

Two JavaScript programs are embedded:

* the similarity computer (`csv.js`): for each interior frame it computes cosine
  similarities between feature vectors at three temporal offsets and emits an
  enriched row, converting an undefined (NaN) adjacent similarity to the text
  sentinel `SKIP`;
* the scene segmenter: it parses the enriched table positionally (column 1 =
  timestamp, 4 = similarity-or-SKIP, 5/6 = wide-window similarities, 7 =
  key-frame flag, 8 = description) and runs `SceneSegmentation`, a stateful
  scan emitting `(start_time, end_time, description)` records.

JavaScript floats are modelled as rationals (`ℚ`); the claims under study are
about control flow and exact comparisons, not float rounding.  The value of a
defined cosine similarity involves square roots, so it is abstracted by a
function parameter `sim`; its undefinedness (NaN), which the source branches
on, is computed exactly: for finite inputs `dot x y / (√(dot x x) * √(dot y y))`
is NaN precisely when one of the two norms is zero.
-/

/-- A parsed spreadsheet cell as the segmenter's loop produces it: either a
JavaScript number or a piece of text (`"SKIP"`, the key-frame flag, or the
description). -/
inductive Cell where
  | num (q : ℚ)
  | str (s : String)
deriving DecidableEq, Repr

/-- JavaScript `cell == "SKIP"` for the values that occur in column 4 (a
number, or the text `"SKIP"`): loose equality of a number with `"SKIP"`
coerces the text to NaN and is false. -/
def cellIsSkip : Cell → Bool
  | .str s => s == "SKIP"
  | .num _ => false

/-- JavaScript `cell < t` for column-4 values: a number compares numerically;
the only text occurring there, `"SKIP"`, coerces to NaN and every NaN
comparison is false. -/
def cellLtNum : Cell → ℚ → Bool
  | .num q, t => decide (q < t)
  | .str _, _ => false

/-- JavaScript `cell == "True"` for column-7 values (text, or the number `0`
from an empty cell): a number never looseley equals `"True"` (which coerces
to NaN). -/
def cellEqTrue : Cell → Bool
  | .str s => s == "True"
  | .num _ => false

/-- JavaScript string coercion of a column-8 value.  The parser only ever
puts the number `0` (from an empty cell) or text in that column; `0`
stringifies to `"0"`. -/
def cellText : Cell → String
  | .str s => s
  | .num _ => "0"

/-- One row of the segmenter's parsed input list, keeping exactly the
positions the loop reads: `timestamp = list[i][1]`, `sim = list[i][4]`,
`avg1 = list[i][5]`, `avg2 = list[i][6]`, `keyCell = list[i][7]`,
`descCell = list[i][8]`.  Positions 1, 5 and 6 always parse to numbers. -/
structure Row where
  timestamp : ℚ
  sim : Cell
  avg1 : ℚ
  avg2 : ℚ
  keyCell : Cell
  descCell : Cell
deriving DecidableEq, Repr

/-- One emitted scene record `[start_time, end_time, description]`. -/
structure Seg where
  start_time : ℚ
  end_time : ℚ
  description : String
deriving DecidableEq, Repr

/-- `averagecheck(averageone, averagetwo, threshold)` from the source. -/
def averagecheck (averageone averagetwo threshold : ℚ) : Bool :=
  decide (averageone < threshold) && decide (averagetwo < threshold)

/-- The segmenter's mutable scan state: the global `data` accumulator plus
the loop-local variables `currentSceneTimeStamp`, `firstSkip`,
`skiptimestamp` and `description`. -/
structure SegState where
  data : List Seg
  currentSceneTimeStamp : ℚ
  firstSkip : Bool
  skiptimestamp : ℚ
  description : String
deriving DecidableEq, Repr

/-- Description accumulation: `if (list[i][7] == "True") description =
description + "\n" + list[i][8]`. -/
def descStep (r : Row) (st : SegState) : SegState :=
  if cellEqTrue r.keyCell then
    { st with description := st.description ++ "\n" ++ cellText r.descCell }
  else st

/-- Low-similarity boundary rule (rule 2): `if (list[i][4] != "SKIP" &&
list[i][4] < threshold) if (averagecheck(...) && list[i][1] -
currentSceneTimeStamp > sceneTimeLimit) { push; description = "";
currentSceneTimeStamp = list[i][1] }`. -/
def rule2Step (sceneTimeLimit threshold : ℚ) (r : Row) (st : SegState) : SegState :=
  if !cellIsSkip r.sim && cellLtNum r.sim threshold then
    if averagecheck r.avg1 r.avg2 threshold
        && decide (r.timestamp - st.currentSceneTimeStamp > sceneTimeLimit) then
      { st with
          data := st.data ++ [⟨st.currentSceneTimeStamp, r.timestamp, st.description⟩],
          description := "",
          currentSceneTimeStamp := r.timestamp }
    else st
  else st

/-- Skip-run boundary rule (rule 3): `if (list[i][4] != "SKIP" && firstSkip
== true) { if (list[i][1] - skiptimestamp >= sceneTimeLimit) { push;
description = " "; currentSceneTimeStamp = list[i][1] } firstSkip = false }`. -/
def rule3Step (sceneTimeLimit : ℚ) (r : Row) (st : SegState) : SegState :=
  if !cellIsSkip r.sim && st.firstSkip then
    let st' :=
      if decide (r.timestamp - st.skiptimestamp ≥ sceneTimeLimit) then
        { st with
            data := st.data ++ [⟨st.currentSceneTimeStamp, r.timestamp, st.description⟩],
            description := " ",
            currentSceneTimeStamp := r.timestamp }
      else st
    { st' with firstSkip := false }
  else st

/-- Skip detection: `if (list[i][4] == "SKIP") if (firstSkip == false)
{ firstSkip = true; skiptimestamp = list[i][1] }`. -/
def skipStep (r : Row) (st : SegState) : SegState :=
  if cellIsSkip r.sim then
    if st.firstSkip = false then
      { st with firstSkip := true, skiptimestamp := r.timestamp }
    else st
  else st

/-- One iteration of the segmenter's loop body, the four phases in source
order. -/
def segStep (sceneTimeLimit threshold : ℚ) (st : SegState) (r : Row) : SegState :=
  skipStep r (rule3Step sceneTimeLimit r (rule2Step sceneTimeLimit threshold r (descStep r st)))

/-- The scan state at function entry.  `data` is a module-level global the
function appends to, so its initial contents `data0` are a parameter;
`skiptimestamp` is `undefined` in the source and only ever read after being
assigned, so its initial value is arbitrary (we use 0). -/
def initState (data0 : List Seg) : SegState :=
  ⟨data0, 0, false, 0, ""⟩

/-- `SceneSegmentation(sceneTimeLimit, threshold)`: scan the parsed rows and
return the global `data` list. -/
def SceneSegmentation (data0 : List Seg) (sceneTimeLimit threshold : ℚ)
    (rows : List Row) : List Seg :=
  (rows.foldl (segStep sceneTimeLimit threshold) (initState data0)).data

/-- The parsing loop of the segmenter's end handler, per cell: a non-empty
cell at position 4 stays the text `"SKIP"` or becomes a parsed float, a
non-empty cell at position 7 or 8 stays text, any other non-empty cell is a
parsed float, and every empty cell becomes the number `0.0`.  Float parsing
of well-formed numerals is abstracted by `pf`. -/
def parseCell (pf : String → ℚ) (idx : ℕ) (cell : String) : Cell :=
  if cell ≠ "" then
    if idx = 4 then
      if cell = "SKIP" then .str cell else .num (pf cell)
    else if idx = 7 ∨ idx = 8 then .str cell
    else .num (pf cell)
  else .num 0

/-- Newline-joined aggregation over a row window: the contribution of each
key-frame row, in order, is a newline followed by its description; non-key
rows contribute nothing.  This is the reference aggregation the emitted
`description` fields are compared against. -/
def joinK : List Row → String
  | [] => ""
  | r :: rs =>
      (if cellEqTrue r.keyCell then "\n" ++ cellText r.descCell else "") ++ joinK rs

/-- The rows of `all` whose timestamp lies in the half-open interval
`(s.start_time, s.end_time]`. -/
def windowOf (all : List Row) (s : Seg) : List Row :=
  all.filter fun r => decide (s.start_time < r.timestamp ∧ r.timestamp ≤ s.end_time)

/-- A scene record's description is the window aggregation, possibly behind
a single-space prefix (the skip-run rule resets the buffer to `" "` rather
than `""`). -/
def DescOk (all : List Row) (s : Seg) : Prop :=
  ∃ p, (p = "" ∨ p = " ") ∧ s.description = p ++ joinK (windowOf all s)

/-- One input row of the similarity computer (`csv.js`): columns 0–3 are
frame index, timestamp, key-frame flag and description; the feature vector
is the remaining columns, empty cells already parsed as `0.0`. -/
structure FrameRow where
  frameindex : ℚ
  timestamp : ℚ
  iskeyFrame : String
  description : String
  features : List ℚ
deriving DecidableEq, Repr

/-- Dummy row used as the out-of-range default of list indexing; the
embedded loops only index in bounds. -/
def defFrameRow : FrameRow := ⟨0, 0, "", "", []⟩

def rowAt (rows : List FrameRow) (i : ℕ) : FrameRow :=
  rows.getD i defFrameRow

def featAt (rows : List FrameRow) (i : ℕ) : List ℚ :=
  (rowAt rows i).features

/-- Dot product of two feature vectors. -/
def dot (x y : List ℚ) : ℚ :=
  (List.zipWith (· * ·) x y).sum

/-- A JavaScript float as the similarity loop produces it: NaN or a finite
value. -/
inductive JsNum where
  | nan
  | num (q : ℚ)
deriving DecidableEq, Repr

/-- A value of the `Similarity` output column after sentinel conversion:
the text `"SKIP"` or a number. -/
inductive SimCell where
  | skip
  | jnum (v : JsNum)
deriving DecidableEq, Repr

/-- `similarity(x, y)` of the `compute-cosine-similarity` package:
`dot(x,y) / (‖x‖ * ‖y‖)`.  For finite inputs the result is NaN exactly when
one of the norms is zero, i.e. when `dot x x = 0` or `dot y y = 0`; the
(irrational) value of the defined case is abstracted by `sim`. -/
def jsCosine (sim : List ℚ → List ℚ → ℚ) (x y : List ℚ) : JsNum :=
  if dot x x = 0 ∨ dot y y = 0 then .nan else .num (sim x y)

/-- `if (isNaN(s)) s = "SKIP"`: only a NaN becomes the sentinel. -/
def skipConv : JsNum → SimCell
  | .nan => .skip
  | .num q => .jnum (.num q)

/-- One row of the similarity computer's output table, columns
`[frame, timestamp, Line1, Line2, Similarity, avgone, avgtwo, iskeyFrame,
description]`. -/
structure OutRow where
  frame : ℚ
  timestamp : ℚ
  line1 : ℕ
  line2 : ℕ
  simAdj : SimCell
  avg1 : JsNum
  avg2 : JsNum
  iskeyFrame : String
  description : String
deriving DecidableEq, Repr

/-- The body of the similarity loop at index `i`: adjacent similarity of
rows `i, i+1`; when `i < n - 3` the two wide-window similarities of rows
`i-1, i+2` and `i-2, i+3`, otherwise `0.0`; NaN of the adjacent similarity
converted to `SKIP`. -/
def enrichRow (sim : List ℚ → List ℚ → ℚ) (rows : List FrameRow) (i : ℕ) : OutRow :=
  let s := jsCosine sim (featAt rows i) (featAt rows (i + 1))
  let a : JsNum × JsNum :=
    if i < rows.length - 3 then
      (jsCosine sim (featAt rows (i - 1)) (featAt rows (i + 2)),
       jsCosine sim (featAt rows (i - 2)) (featAt rows (i + 3)))
    else (.num 0, .num 0)
  { frame := (rowAt rows i).frameindex
    timestamp := (rowAt rows i).timestamp
    line1 := i
    line2 := i + 1
    simAdj := skipConv s
    avg1 := a.1
    avg2 := a.2
    iskeyFrame := (rowAt rows i).iskeyFrame
    description := (rowAt rows i).description }

/-- The similarity loop of `csv.js`: `for (var i = 2; i < list.length - 1;
i += 1)`, i.e. one output row for each `i` from `2` to `n - 2`. -/
def SimilarityComputer (sim : List ℚ → List ℚ → ℚ) (rows : List FrameRow) : List OutRow :=
  (List.range' 2 (rows.length - 3)).map (enrichRow sim rows)

/-! ## Helper lemmas: the four phases of the segmenter loop body -/

lemma descStep_key {r : Row} (st : SegState) (h : cellEqTrue r.keyCell = true) :
    descStep r st = { st with description := st.description ++ "\n" ++ cellText r.descCell } := by
  simp [descStep, h]

lemma descStep_not_key {r : Row} (st : SegState) (h : cellEqTrue r.keyCell = false) :
    descStep r st = st := by
  simp [descStep, h]

lemma descStep_data (r : Row) (st : SegState) : (descStep r st).data = st.data := by
  unfold descStep; split <;> rfl

lemma descStep_cur (r : Row) (st : SegState) :
    (descStep r st).currentSceneTimeStamp = st.currentSceneTimeStamp := by
  unfold descStep; split <;> rfl

lemma descStep_firstSkip (r : Row) (st : SegState) :
    (descStep r st).firstSkip = st.firstSkip := by
  unfold descStep; split <;> rfl

lemma descStep_skipT (r : Row) (st : SegState) :
    (descStep r st).skiptimestamp = st.skiptimestamp := by
  unfold descStep; split <;> rfl

lemma rule2Step_fires {l t : ℚ} {r : Row} (st : SegState)
    (h1 : cellIsSkip r.sim = false) (h2 : cellLtNum r.sim t = true)
    (h3 : r.avg1 < t) (h4 : r.avg2 < t)
    (h5 : r.timestamp - st.currentSceneTimeStamp > l) :
    rule2Step l t r st =
      { st with
          data := st.data ++ [⟨st.currentSceneTimeStamp, r.timestamp, st.description⟩],
          description := "",
          currentSceneTimeStamp := r.timestamp } := by
  simp [rule2Step, averagecheck, h1, h2, h3, h4, h5]

lemma rule2Step_not_fires {l t : ℚ} {r : Row} (st : SegState)
    (h : ¬(cellIsSkip r.sim = false ∧ cellLtNum r.sim t = true ∧
           r.avg1 < t ∧ r.avg2 < t ∧ r.timestamp - st.currentSceneTimeStamp > l)) :
    rule2Step l t r st = st := by
  unfold rule2Step averagecheck
  split <;> rename_i h1
  · split <;> rename_i h2
    · exfalso
      simp only [Bool.and_eq_true, Bool.not_eq_true', decide_eq_true_eq] at h1 h2
      exact h ⟨h1.1, h1.2, h2.1.1, h2.1.2, h2.2⟩
    · rfl
  · rfl

lemma rule3Step_fires {l : ℚ} {r : Row} (st : SegState)
    (h1 : cellIsSkip r.sim = false) (h2 : st.firstSkip = true)
    (h3 : r.timestamp - st.skiptimestamp ≥ l) :
    rule3Step l r st =
      { st with
          data := st.data ++ [⟨st.currentSceneTimeStamp, r.timestamp, st.description⟩],
          description := " ",
          currentSceneTimeStamp := r.timestamp,
          firstSkip := false } := by
  simp [rule3Step, h1, h2, h3]

lemma rule3Step_no_time {l : ℚ} {r : Row} (st : SegState)
    (h1 : cellIsSkip r.sim = false) (h2 : st.firstSkip = true)
    (h3 : ¬(r.timestamp - st.skiptimestamp ≥ l)) :
    rule3Step l r st = { st with firstSkip := false } := by
  simp [rule3Step, h1, h2, h3]

lemma rule3Step_no_run {l : ℚ} {r : Row} (st : SegState)
    (h2 : st.firstSkip = false) :
    rule3Step l r st = st := by
  simp [rule3Step, h2]

lemma rule3Step_skip_row {l : ℚ} {r : Row} (st : SegState)
    (h1 : cellIsSkip r.sim = true) :
    rule3Step l r st = st := by
  simp [rule3Step, h1]

lemma skipStep_not_skip {r : Row} (st : SegState) (h : cellIsSkip r.sim = false) :
    skipStep r st = st := by
  simp [skipStep, h]

lemma skipStep_enter {r : Row} (st : SegState)
    (h1 : cellIsSkip r.sim = true) (h2 : st.firstSkip = false) :
    skipStep r st = { st with firstSkip := true, skiptimestamp := r.timestamp } := by
  simp [skipStep, h1, h2]

lemma skipStep_in_run {r : Row} (st : SegState)
    (h1 : cellIsSkip r.sim = true) (h2 : st.firstSkip = true) :
    skipStep r st = st := by
  simp [skipStep, h1, h2]

lemma skipStep_data (r : Row) (st : SegState) : (skipStep r st).data = st.data := by
  unfold skipStep; split <;> [skip; rfl]; split <;> rfl

lemma skipStep_cur (r : Row) (st : SegState) :
    (skipStep r st).currentSceneTimeStamp = st.currentSceneTimeStamp := by
  unfold skipStep; split <;> [skip; rfl]; split <;> rfl

lemma skipStep_desc (r : Row) (st : SegState) :
    (skipStep r st).description = st.description := by
  unfold skipStep; split <;> [skip; rfl]; split <;> rfl
lemma descStep_shift (r : Row) (st : SegState) (d : List Seg) :
    descStep r { st with data := d ++ st.data } =
      { descStep r st with data := d ++ (descStep r st).data } := by
  by_cases h : cellEqTrue r.keyCell = true <;> simp [descStep, h]

lemma rule2Step_shift (l t : ℚ) (r : Row) (st : SegState) (d : List Seg) :
    rule2Step l t r { st with data := d ++ st.data } =
      { rule2Step l t r st with data := d ++ (rule2Step l t r st).data } := by
  rcases st with ⟨dt, c, f, k, ds⟩
  by_cases h1 : (!cellIsSkip r.sim && cellLtNum r.sim t) = true <;>
    by_cases h2 : (averagecheck r.avg1 r.avg2 t && decide (r.timestamp - c > l)) = true <;>
      simp [rule2Step, h1, h2]

lemma rule3Step_shift (l : ℚ) (r : Row) (st : SegState) (d : List Seg) :
    rule3Step l r { st with data := d ++ st.data } =
      { rule3Step l r st with data := d ++ (rule3Step l r st).data } := by
  rcases st with ⟨dt, c, f, k, ds⟩
  by_cases h1 : (!cellIsSkip r.sim && f) = true <;>
    by_cases h2 : (r.timestamp - k ≥ l) <;>
      simp [rule3Step, h1, h2]

lemma skipStep_shift (r : Row) (st : SegState) (d : List Seg) :
    skipStep r { st with data := d ++ st.data } =
      { skipStep r st with data := d ++ (skipStep r st).data } := by
  rcases st with ⟨dt, c, f, k, ds⟩
  by_cases h1 : cellIsSkip r.sim = true <;> by_cases h2 : f = false <;>
    simp [skipStep, h1, h2]

lemma segStep_shift (l t : ℚ) (r : Row) (st : SegState) (d : List Seg) :
    segStep l t { st with data := d ++ st.data } r =
      { segStep l t st r with data := d ++ (segStep l t st r).data } := by
  simp only [segStep, descStep_shift, rule2Step_shift, rule3Step_shift, skipStep_shift]

lemma foldl_shift (l t : ℚ) :
    ∀ (rows : List Row) (st : SegState) (d : List Seg),
      (rows.foldl (segStep l t) { st with data := d ++ st.data }) =
        { rows.foldl (segStep l t) st with
            data := d ++ (rows.foldl (segStep l t) st).data }
  | [], st, d => by simp
  | r :: rows, st, d => by
      simp only [List.foldl_cons, segStep_shift]
      exact foldl_shift l t rows (segStep l t st r) d

lemma rule2Step_data_cases (l t : ℚ) (r : Row) (st : SegState) :
    (rule2Step l t r st).data = st.data ∨
      (rule2Step l t r st).data =
        st.data ++ [⟨st.currentSceneTimeStamp, r.timestamp, st.description⟩] := by
  unfold rule2Step
  split
  · split
    · right; rfl
    · left; rfl
  · left; rfl

lemma rule3Step_data_cases (l : ℚ) (r : Row) (st : SegState) :
    (rule3Step l r st).data = st.data ∨
      (rule3Step l r st).data =
        st.data ++ [⟨st.currentSceneTimeStamp, r.timestamp, st.description⟩] := by
  unfold rule3Step
  split
  · split
    · right; rfl
    · left; rfl
  · left; rfl

lemma mem_append_single {s x : Seg} {d : List Seg} (h : s ∈ d ++ [x]) :
    s ∈ d ∨ s = x := by
  simpa using h

lemma segStep_data_mem (l t : ℚ) (r : Row) (st : SegState) {s : Seg}
    (h : s ∈ (segStep l t st r).data) :
    s ∈ st.data ∨ s.end_time = r.timestamp := by
  rw [segStep, skipStep_data] at h
  have step2 : s ∈ (rule2Step l t r (descStep r st)).data →
      s ∈ st.data ∨ s.end_time = r.timestamp := by
    intro h2m
    rcases rule2Step_data_cases l t r (descStep r st) with h2 | h2 <;>
      rw [h2, descStep_data] at h2m
    · exact Or.inl h2m
    · rcases mem_append_single h2m with hm | he
      · exact Or.inl hm
      · right; rw [he]
  rcases rule3Step_data_cases l r (rule2Step l t r (descStep r st)) with h3 | h3 <;>
    rw [h3] at h
  · exact step2 h
  · rcases mem_append_single h with hm | he
    · exact step2 hm
    · right; rw [he]

lemma foldl_data_mem (l t : ℚ) :
    ∀ (rows : List Row) (st : SegState) (s : Seg),
      s ∈ (rows.foldl (segStep l t) st).data →
        s ∈ st.data ∨ ∃ r ∈ rows, s.end_time = r.timestamp
  | [], st, s => by simp
  | r :: rows, st, s => by
      intro h
      rcases foldl_data_mem l t rows (segStep l t st r) s h with h' | ⟨r', hr', he⟩
      · rcases segStep_data_mem l t r st h' with h'' | he
        · exact Or.inl h''
        · exact Or.inr ⟨r, List.mem_cons_self _ _, he⟩
      · exact Or.inr ⟨r', List.mem_cons_of_mem _ hr', he⟩

lemma joinK_append (a b : List Row) : joinK (a ++ b) = joinK a ++ joinK b := by
  induction a with
  | nil => simp [joinK]
  | cons r rs ih => simp [joinK, ih, String.append_assoc]

/-! ## Claim theorems -/

/-- C1: on a row `r`, rule 2 emits a boundary exactly when `r.sim` is not
SKIP, `r.sim < threshold`, both wide similarities are `< threshold`, and
`r.timestamp - currentSceneTimeStamp > sceneTimeLimit` (strict); it then
emits `(currentSceneTimeStamp, r.timestamp, description)`, empties the
description and advances `currentSceneTimeStamp`; otherwise it leaves the
state unchanged — in particular whenever
`r.timestamp - currentSceneTimeStamp ≤ sceneTimeLimit`. -/
theorem rule2_low_similarity_boundary (l t : ℚ) (st : SegState) (r : Row) :
    ((cellIsSkip r.sim = false ∧ cellLtNum r.sim t = true ∧
      r.avg1 < t ∧ r.avg2 < t ∧ r.timestamp - st.currentSceneTimeStamp > l) →
      rule2Step l t r st =
        { st with
            data := st.data ++ [⟨st.currentSceneTimeStamp, r.timestamp, st.description⟩],
            description := "",
            currentSceneTimeStamp := r.timestamp }) ∧
    (¬(cellIsSkip r.sim = false ∧ cellLtNum r.sim t = true ∧
      r.avg1 < t ∧ r.avg2 < t ∧ r.timestamp - st.currentSceneTimeStamp > l) →
      rule2Step l t r st = st) ∧
    (r.timestamp - st.currentSceneTimeStamp ≤ l → rule2Step l t r st = st) := by
  refine ⟨fun h => rule2Step_fires st h.1 h.2.1 h.2.2.1 h.2.2.2.1 h.2.2.2.2,
    fun h => rule2Step_not_fires st h, fun h => rule2Step_not_fires st ?_⟩
  rintro ⟨-, -, -, -, h5⟩
  exact absurd h5 (not_lt.2 h)

/-- Witness for C1: the spec's scenario — one row at timestamp 12 with
similarities 0.1/0.2/0.1, threshold 0.75, limit 10, initial scene start 0 —
emits `SceneRecord(0, 12, "")` and advances the scene start to 12. -/
theorem rule2_low_similarity_boundary_witness :
    (cellIsSkip (Cell.num (1/10)) = false ∧ cellLtNum (Cell.num (1/10)) (3/4) = true ∧
      (2/10 : ℚ) < 3/4 ∧ (1/10 : ℚ) < 3/4 ∧ (12 : ℚ) - 0 > 10) ∧
    rule2Step 10 (3/4) ⟨12, .num (1/10), 2/10, 1/10, .num 0, .num 0⟩ (initState []) =
      ⟨[⟨0, 12, ""⟩], 12, false, 0, ""⟩ := by
  have hc : cellIsSkip (Cell.num (1/10)) = false ∧ cellLtNum (Cell.num (1/10)) (3/4) = true ∧
      (2/10 : ℚ) < 3/4 ∧ (1/10 : ℚ) < 3/4 ∧ (12 : ℚ) - 0 > 10 :=
    ⟨rfl, by norm_num [cellLtNum], by norm_num, by norm_num, by norm_num⟩
  exact ⟨hc,
    (rule2_low_similarity_boundary 10 (3/4) (initState [])
      ⟨12, .num (1/10), 2/10, 1/10, .num 0, .num 0⟩).1 hc⟩

/-- C2: on a non-SKIP row while a skip run is open, rule 3 emits
`(currentSceneTimeStamp, r.timestamp, description)` exactly when
`r.timestamp - skiptimestamp ≥ sceneTimeLimit`, resetting the description
to a single space and advancing the scene start; `firstSkip` is cleared on
every non-SKIP row regardless; a SKIP row opens a run and captures its
timestamp only when no run is open.  The spec's scenario — SKIP rows from
timestamp 5 then a non-SKIP row at 20 with limit 10 — emits exactly one
boundary, at 20. -/
theorem rule3_skip_run_boundary (l : ℚ) (st : SegState) (r : Row) :
    ((cellIsSkip r.sim = false → st.firstSkip = true →
      r.timestamp - st.skiptimestamp ≥ l →
      rule3Step l r st =
        { st with
            data := st.data ++ [⟨st.currentSceneTimeStamp, r.timestamp, st.description⟩],
            description := " ",
            currentSceneTimeStamp := r.timestamp,
            firstSkip := false }) ∧
     (cellIsSkip r.sim = false → st.firstSkip = true →
      r.timestamp - st.skiptimestamp < l →
      rule3Step l r st = { st with firstSkip := false }) ∧
     (cellIsSkip r.sim = false → (rule3Step l r st).firstSkip = false) ∧
     (cellIsSkip r.sim = true → st.firstSkip = false →
      skipStep r st = { st with firstSkip := true, skiptimestamp := r.timestamp }) ∧
     (cellIsSkip r.sim = true → st.firstSkip = true → skipStep r st = st)) ∧
    SceneSegmentation [] 10 (3/4)
      [⟨5, .str "SKIP", 0, 0, .num 0, .num 0⟩,
       ⟨6, .str "SKIP", 0, 0, .num 0, .num 0⟩,
       ⟨7, .str "SKIP", 0, 0, .num 0, .num 0⟩,
       ⟨20, .num (9/10), 0, 0, .num 0, .num 0⟩] = [⟨0, 20, ""⟩] := by
  refine ⟨⟨fun h1 h2 h3 => rule3Step_fires st h1 h2 h3,
    fun h1 h2 h3 => rule3Step_no_time st h1 h2 (not_le.2 h3), ?_,
    fun h1 h2 => skipStep_enter st h1 h2,
    fun h1 h2 => skipStep_in_run st h1 h2⟩, ?_⟩
  · intro h1
    by_cases hf : st.firstSkip = true
    · by_cases hT : r.timestamp - st.skiptimestamp ≥ l
      · rw [rule3Step_fires st h1 hf hT]
      · rw [rule3Step_no_time st h1 hf hT]
    · rw [rule3Step_no_run st (by simpa using hf)]
      simpa using hf
  · norm_num [SceneSegmentation, initState, segStep, rule2Step, rule3Step, skipStep,
      descStep, averagecheck, cellIsSkip, cellLtNum, cellEqTrue, cellText]

/-- Witness for C2: a non-SKIP row at timestamp 20 arriving while a skip
run opened at timestamp 5 is pending, with limit 10, emits the record and
resets the description to a single space. -/
theorem rule3_skip_run_boundary_witness :
    (cellIsSkip (Cell.num (9/10)) = false ∧
      (⟨[], 0, true, 5, "d"⟩ : SegState).firstSkip = true ∧ (20 : ℚ) - 5 ≥ 10) ∧
    rule3Step 10 ⟨20, .num (9/10), 0, 0, .num 0, .num 0⟩ ⟨[], 0, true, 5, "d"⟩ =
      ⟨[⟨0, 20, "d"⟩], 20, false, 5, " "⟩ :=
  ⟨⟨rfl, rfl, by norm_num⟩,
    (rule3_skip_run_boundary 10 ⟨[], 0, true, 5, "d"⟩
      ⟨20, .num (9/10), 0, 0, .num 0, .num 0⟩).1.1 rfl rfl (by norm_num)⟩

/-- C10: every empty cell, at every column position, is parsed to the
number `0.0` — including the key-frame flag (position 7), the description
(position 8) and the similarity (position 4).  Consequently a row with an
empty key-frame cell never equals the text `"True"` and never accumulates a
description, and an empty similarity cell is the number `0.0` — not SKIP —
and is below any positive threshold. -/
theorem segmenter_empty_cell_coercion (pf : String → ℚ) (idx : ℕ) (t : ℚ)
    (st : SegState) (r : Row) :
    parseCell pf idx "" = Cell.num 0 ∧
    cellEqTrue (parseCell pf 7 "") = false ∧
    (r.keyCell = parseCell pf 7 "" → descStep r st = st) ∧
    cellIsSkip (parseCell pf 4 "") = false ∧
    (0 < t → cellLtNum (parseCell pf 4 "") t = true) := by
  refine ⟨by simp [parseCell], by simp [parseCell, cellEqTrue], ?_,
    by simp [parseCell, cellIsSkip], ?_⟩
  · intro hk
    apply descStep_not_key
    rw [hk]
    simp [parseCell, cellEqTrue]
  · intro ht
    simp [parseCell, cellLtNum, ht]

/-- Witness for C10 at a concrete parser, threshold 0.75 and a row whose
key-frame cell came from an empty cell. -/
theorem segmenter_empty_cell_coercion_witness :
    ((⟨0, .num 0, 0, 0, .num 0, .num 0⟩ : Row).keyCell = parseCell (fun _ => 0) 7 "" ∧
      (0 : ℚ) < 3/4) ∧
    descStep ⟨0, .num 0, 0, 0, .num 0, .num 0⟩ (initState []) = initState [] ∧
    cellLtNum (parseCell (fun _ => 0) 4 "") (3/4) = true := by
  have h := segmenter_empty_cell_coercion (fun _ => 0) 0 (3/4) (initState [])
    ⟨0, .num 0, 0, 0, .num 0, .num 0⟩
  exact ⟨⟨by simp [parseCell], by norm_num⟩,
    h.2.2.1 (by simp [parseCell]), h.2.2.2.2 (by norm_num)⟩

/-- Counterexample to C5 as stated: invoking `SceneSegmentation` twice in
the same process does not return byte-identical output — the global `data`
table accumulates, so the second invocation returns the records twice. -/
theorem sceneSegmentation_second_call_ne :
    SceneSegmentation
        (SceneSegmentation [] 10 (3/4) [⟨12, .num (1/10), 2/10, 1/10, .num 0, .num 0⟩])
        10 (3/4) [⟨12, .num (1/10), 2/10, 1/10, .num 0, .num 0⟩] ≠
      SceneSegmentation [] 10 (3/4) [⟨12, .num (1/10), 2/10, 1/10, .num 0, .num 0⟩] := by
  norm_num [SceneSegmentation, initState, segStep, rule2Step, rule3Step, skipStep,
    descStep, averagecheck, cellIsSkip, cellLtNum, cellEqTrue, cellText]

/-- C5 amended: the scan itself is deterministic and writes only to the
global `data` table, to which it appends: a run started with global
contents `data0` returns `data0` followed by the run's own records, so a
second in-process invocation returns the first output concatenated with a
fresh copy of it, while a rerun from a fresh process (empty global) is
byte-identical. -/
theorem sceneSegmentation_global_append (data0 : List Seg) (l t : ℚ) (rows : List Row) :
    SceneSegmentation data0 l t rows = data0 ++ SceneSegmentation [] l t rows ∧
    SceneSegmentation (SceneSegmentation [] l t rows) l t rows =
      SceneSegmentation [] l t rows ++ SceneSegmentation [] l t rows := by
  have key : ∀ d : List Seg,
      SceneSegmentation d l t rows = d ++ SceneSegmentation [] l t rows := by
    intro d
    unfold SceneSegmentation
    have h0 : initState d = { initState [] with data := d ++ (initState []).data } := by
      simp [initState]
    rw [h0, foldl_shift]
  exact ⟨key data0, key _⟩

/-- C9: the segmenter never flushes a trailing scene: every emitted record's
end time is the timestamp of some input row (the row whose boundary rule
fired), and on a concrete input whose last row accumulates a pending
description after the final boundary, that buffer is discarded — the output
holds exactly the one record emitted at the boundary row. -/
theorem sceneSegmentation_tail_drop :
    (∀ (l t : ℚ) (rows : List Row) (s : Seg), s ∈ SceneSegmentation [] l t rows →
      ∃ r ∈ rows, s.end_time = r.timestamp) ∧
    SceneSegmentation [] 10 (3/4)
      [⟨11, .num (1/10), 1/10, 1/10, .str "True", .str "A"⟩,
       ⟨12, .num (9/10), 0, 0, .str "True", .str "B"⟩] = [⟨0, 11, "\nA"⟩] := by
  constructor
  · intro l t rows s hs
    rcases foldl_data_mem l t rows (initState []) s hs with h | h
    · simp [initState] at h
    · exact h
  · norm_num [SceneSegmentation, initState, segStep, rule2Step, rule3Step, skipStep,
      descStep, averagecheck, cellIsSkip, cellLtNum, cellEqTrue, cellText]
    decide

/-- Witness for C9: the record emitted in the concrete run ends at the
timestamp of its boundary row. -/
theorem sceneSegmentation_tail_drop_witness :
    ((⟨0, 11, "\nA"⟩ : Seg) ∈ SceneSegmentation [] 10 (3/4)
      [⟨11, .num (1/10), 1/10, 1/10, .str "True", .str "A"⟩,
       ⟨12, .num (9/10), 0, 0, .str "True", .str "B"⟩]) ∧
    ∃ r ∈ [(⟨11, .num (1/10), 1/10, 1/10, .str "True", .str "A"⟩ : Row),
           ⟨12, .num (9/10), 0, 0, .str "True", .str "B"⟩],
      (⟨0, 11, "\nA"⟩ : Seg).end_time = r.timestamp := by
  have hm : (⟨0, 11, "\nA"⟩ : Seg) ∈ SceneSegmentation [] 10 (3/4)
      [⟨11, .num (1/10), 1/10, 1/10, .str "True", .str "A"⟩,
       ⟨12, .num (9/10), 0, 0, .str "True", .str "B"⟩] := by
    rw [sceneSegmentation_tail_drop.2]
    exact List.mem_singleton.2 rfl
  exact ⟨hm, sceneSegmentation_tail_drop.1 10 (3/4) _ _ hm⟩

lemma rule2Step_cur_cases (l t : ℚ) (r : Row) (st : SegState) :
    (rule2Step l t r st).currentSceneTimeStamp = st.currentSceneTimeStamp ∨
      (rule2Step l t r st).currentSceneTimeStamp = r.timestamp := by
  unfold rule2Step
  split
  · split
    · right; rfl
    · left; rfl
  · left; rfl

lemma rule3Step_cur_cases (l : ℚ) (r : Row) (st : SegState) :
    (rule3Step l r st).currentSceneTimeStamp = st.currentSceneTimeStamp ∨
      (rule3Step l r st).currentSceneTimeStamp = r.timestamp := by
  unfold rule3Step
  split
  · split
    · right; rfl
    · left; rfl
  · left; rfl

lemma foldl_start_le (l t : ℚ) :
    ∀ (rows : List Row) (st : SegState),
      rows.Pairwise (fun a b => a.timestamp ≤ b.timestamp) →
      (∀ r ∈ rows, st.currentSceneTimeStamp ≤ r.timestamp) →
      (∀ s ∈ st.data, s.start_time ≤ s.end_time) →
      ∀ s ∈ (rows.foldl (segStep l t) st).data, s.start_time ≤ s.end_time
  | [], st => fun _ _ hdata => by simpa using hdata
  | r :: rest, st => by
      intro hmono hcur hdata
      have hpw := List.pairwise_cons.1 hmono
      have hcr : st.currentSceneTimeStamp ≤ r.timestamp := hcur r (List.mem_cons_self _ _)
      have hstep2 : ∀ s ∈ (rule2Step l t r (descStep r st)).data,
          s.start_time ≤ s.end_time := by
        intro s hs
        rcases rule2Step_data_cases l t r (descStep r st) with h2 | h2 <;>
          rw [h2, descStep_data] at hs
        · exact hdata s hs
        · rcases mem_append_single hs with h | he
          · exact hdata s h
          · rw [he]
            simpa [descStep_cur] using hcr
      have hdata1 : ∀ s ∈ (segStep l t st r).data, s.start_time ≤ s.end_time := by
        intro s hs
        rw [segStep, skipStep_data] at hs
        rcases rule3Step_data_cases l r (rule2Step l t r (descStep r st)) with h3 | h3 <;>
          rw [h3] at hs
        · exact hstep2 s hs
        · rcases mem_append_single hs with h | he
          · exact hstep2 s h
          · rw [he]
            show (rule2Step l t r (descStep r st)).currentSceneTimeStamp ≤ r.timestamp
            rcases rule2Step_cur_cases l t r (descStep r st) with h2 | h2
            · rw [h2]
              simpa [descStep_cur] using hcr
            · rw [h2]
      have hcur1 : ∀ x ∈ rest, (segStep l t st r).currentSceneTimeStamp ≤ x.timestamp := by
        intro x hx
        rw [segStep, skipStep_cur]
        rcases rule3Step_cur_cases l r (rule2Step l t r (descStep r st)) with h3 | h3 <;>
          rw [h3]
        · rcases rule2Step_cur_cases l t r (descStep r st) with h2 | h2 <;> rw [h2]
          · rw [descStep_cur]
            exact hcur x (List.mem_cons_of_mem _ hx)
          · exact hpw.1 x hx
        · exact hpw.1 x hx
      exact foldl_start_le l t rest (segStep l t st r) hpw.2 hcur1 hdata1

/-- Counterexample to C4 as stated: on a row where rule 2 fires and then
rule 3 also fires (the skip run opened before the boundary and is old
enough), the second record has `start_time = end_time` and a nonzero
`start_time`, violating `startTime < endTime` for a non-leading record. -/
theorem sceneSegmentation_degenerate_record_cex :
    SceneSegmentation [] 10 (3/4)
      [⟨5, .str "SKIP", 0, 0, .num 0, .num 0⟩,
       ⟨20, .num (1/10), 1/10, 1/10, .num 0, .num 0⟩] =
      [⟨0, 20, ""⟩, ⟨20, 20, ""⟩] ∧
    ¬((⟨20, 20, ""⟩ : Seg).start_time < (⟨20, 20, ""⟩ : Seg).end_time) ∧
    (⟨20, 20, ""⟩ : Seg).start_time ≠ 0 := by
  refine ⟨?_, by norm_num, by norm_num⟩
  norm_num [SceneSegmentation, initState, segStep, rule2Step, rule3Step, skipStep,
    descStep, averagecheck, cellIsSkip, cellLtNum, cellEqTrue, cellText]

/-- C4 amended: with non-decreasing, non-negative timestamps and a positive
scene time limit, every emitted record satisfies `start_time ≤ end_time`
(equality is possible, exactly in the dual-fire situation the
counterexample exhibits); the strict inequality claimed by the spec fails
only there. -/
theorem sceneSegmentation_start_le_end (l t : ℚ) (rows : List Row)
    (_hl : 0 < l)
    (hmono : rows.Pairwise (fun a b => a.timestamp ≤ b.timestamp))
    (hnn : ∀ r ∈ rows, 0 ≤ r.timestamp) :
    ∀ s ∈ SceneSegmentation [] l t rows, s.start_time ≤ s.end_time := by
  intro s hs
  refine foldl_start_le l t rows (initState []) hmono ?_ (by simp [initState]) s hs
  intro r hr
  simpa [initState] using hnn r hr

/-- Witness for the amended C4 on the dual-fire input: both records of the
concrete run satisfy `start_time ≤ end_time`. -/
theorem sceneSegmentation_start_le_end_witness :
    ((0 : ℚ) < 10 ∧
      ([(⟨5, .str "SKIP", 0, 0, .num 0, .num 0⟩ : Row),
        ⟨20, .num (1/10), 1/10, 1/10, .num 0, .num 0⟩].Pairwise
          (fun a b => a.timestamp ≤ b.timestamp)) ∧
      (∀ r ∈ [(⟨5, .str "SKIP", 0, 0, .num 0, .num 0⟩ : Row),
        ⟨20, .num (1/10), 1/10, 1/10, .num 0, .num 0⟩], 0 ≤ r.timestamp)) ∧
    ∀ s ∈ SceneSegmentation [] 10 (3/4)
      [⟨5, .str "SKIP", 0, 0, .num 0, .num 0⟩,
       ⟨20, .num (1/10), 1/10, 1/10, .num 0, .num 0⟩],
      s.start_time ≤ s.end_time := by
  refine ⟨⟨by norm_num, by norm_num [List.pairwise_cons], ?_⟩, ?_⟩
  · intro r hr
    simp only [List.mem_cons, List.not_mem_nil, or_false] at hr
    rcases hr with h | h <;> subst h <;> norm_num
  · refine sceneSegmentation_start_le_end 10 (3/4) _ (by norm_num)
      (by norm_num [List.pairwise_cons]) ?_
    intro r hr
    simp only [List.mem_cons, List.not_mem_nil, or_false] at hr
    rcases hr with h | h <;> subst h <;> norm_num

/-- Counterexample to C6 as stated: a 4-frame input (fewer than 5 frames)
does not yield an empty enriched sequence — the loop `i = 2; i < n - 1`
runs once at `i = 2`. -/
theorem similarity_four_frames_cex :
    ([(⟨0, 0, "", "", [1]⟩ : FrameRow), ⟨1, 1, "", "", [1]⟩,
      ⟨2, 2, "", "", [1]⟩, ⟨3, 3, "", "", [1]⟩] : List FrameRow).length < 5 ∧
    SimilarityComputer (fun _ _ => 0)
      [⟨0, 0, "", "", [1]⟩, ⟨1, 1, "", "", [1]⟩, ⟨2, 2, "", "", [1]⟩, ⟨3, 3, "", "", [1]⟩] ≠
      [] := by
  refine ⟨by norm_num, fun hcontra => ?_⟩
  have hlen : (SimilarityComputer (fun _ _ => 0)
      [(⟨0, 0, "", "", [1]⟩ : FrameRow), ⟨1, 1, "", "", [1]⟩,
       ⟨2, 2, "", "", [1]⟩, ⟨3, 3, "", "", [1]⟩]).length = 1 := by
    simp [SimilarityComputer]
  rw [hcontra] at hlen
  simp at hlen

/-- C6 amended: the enriched sequence is empty exactly for inputs of fewer
than 4 frames (the cutoff is 4, not 5: a 4-frame input yields one enriched
row). -/
theorem similarity_short_input_empty (sim : List ℚ → List ℚ → ℚ)
    (rows : List FrameRow) (h : rows.length < 4) :
    SimilarityComputer sim rows = [] := by
  unfold SimilarityComputer
  have h0 : rows.length - 3 = 0 := by omega
  rw [h0]
  rfl

/-- Witness for the amended C6: a 3-frame input yields no enriched rows. -/
theorem similarity_short_input_empty_witness :
    ([(⟨0, 0, "", "", [1]⟩ : FrameRow), ⟨1, 1, "", "", [1]⟩,
      ⟨2, 2, "", "", [1]⟩] : List FrameRow).length < 4 ∧
    SimilarityComputer (fun _ _ => 0)
      [⟨0, 0, "", "", [1]⟩, ⟨1, 1, "", "", [1]⟩, ⟨2, 2, "", "", [1]⟩] = [] :=
  ⟨by norm_num, similarity_short_input_empty _ _ (by norm_num)⟩

/-- C8: the similarity computer emits exactly one enriched row per index
`i` from 2 to `n - 2`, in input order: the `j`-th output row is built from
input row `j + 2`, compares frames `j + 2` and `j + 3` for the adjacent
similarity, and carries the wide-window similarities of frames
`(j+1, j+4)` and `(j, j+5)` when `j + 2 < n - 3`, else `0.0`. -/
theorem similarity_enrichment_contract (sim : List ℚ → List ℚ → ℚ) (rows : List FrameRow) :
    (SimilarityComputer sim rows).length = rows.length - 3 ∧
    ∀ j (h : j < (SimilarityComputer sim rows).length),
      (SimilarityComputer sim rows).get ⟨j, h⟩ =
        { frame := (rowAt rows (j + 2)).frameindex
          timestamp := (rowAt rows (j + 2)).timestamp
          line1 := j + 2
          line2 := j + 3
          simAdj := skipConv (jsCosine sim (featAt rows (j + 2)) (featAt rows (j + 3)))
          avg1 := if j + 2 < rows.length - 3 then
              jsCosine sim (featAt rows (j + 1)) (featAt rows (j + 4)) else .num 0
          avg2 := if j + 2 < rows.length - 3 then
              jsCosine sim (featAt rows j) (featAt rows (j + 5)) else .num 0
          iskeyFrame := (rowAt rows (j + 2)).iskeyFrame
          description := (rowAt rows (j + 2)).description } := by
  constructor
  · simp [SimilarityComputer]
  · intro j h
    have hlen : j < rows.length - 3 := by
      simpa [SimilarityComputer] using h
    show (List.map (enrichRow sim rows) (List.range' 2 (rows.length - 3))).get
      ⟨j, by simpa [SimilarityComputer] using h⟩ = _
    rw [List.get_map]
    have hj : (List.range' 2 (rows.length - 3)).get ⟨j, by simpa using hlen⟩ = 2 + j := by
      simp [List.getElem_range']
    rw [hj, Nat.add_comm 2 j]
    unfold enrichRow
    by_cases hg : j + 2 < rows.length - 3 <;> simp [hg]

/-- Witness for C8 on a 6-frame input: there are 3 output rows and the
first one compares frames 2 and 3, with wide windows over frames (1,4) and
(0,5), which are in range since 2 < 3. -/
theorem similarity_enrichment_contract_witness :
    (SimilarityComputer (fun _ _ => 0)
      [⟨0, 0, "", "", [1]⟩, ⟨1, 1, "", "", [1]⟩, ⟨2, 2, "", "", [1]⟩,
       ⟨3, 3, "", "", [1]⟩, ⟨4, 4, "", "", [1]⟩, ⟨5, 5, "", "", [1]⟩]).length = 3 ∧
    (SimilarityComputer (fun _ _ => 0)
      [⟨0, 0, "", "", [1]⟩, ⟨1, 1, "", "", [1]⟩, ⟨2, 2, "", "", [1]⟩,
       ⟨3, 3, "", "", [1]⟩, ⟨4, 4, "", "", [1]⟩, ⟨5, 5, "", "", [1]⟩]).get
      ⟨0, by simp [SimilarityComputer]⟩ =
      ⟨2, 2, 2, 3, .jnum (.num 0), .num 0, .num 0, "", ""⟩ := by
  constructor
  · rw [(similarity_enrichment_contract (fun _ _ => 0)
      [⟨0, 0, "", "", [1]⟩, ⟨1, 1, "", "", [1]⟩, ⟨2, 2, "", "", [1]⟩,
       ⟨3, 3, "", "", [1]⟩, ⟨4, 4, "", "", [1]⟩, ⟨5, 5, "", "", [1]⟩]).1]
    norm_num
  · rw [(similarity_enrichment_contract (fun _ _ => 0)
      [⟨0, 0, "", "", [1]⟩, ⟨1, 1, "", "", [1]⟩, ⟨2, 2, "", "", [1]⟩,
       ⟨3, 3, "", "", [1]⟩, ⟨4, 4, "", "", [1]⟩, ⟨5, 5, "", "", [1]⟩]).2 0
      (by simp [SimilarityComputer])]
    norm_num [rowAt, featAt, jsCosine, dot, skipConv, defFrameRow]

/-- C7: for every output row, the adjacent-similarity column is never a
numeric NaN: it is the SKIP sentinel exactly when the adjacent cosine
similarity is undefined (a zero-norm operand), and the defined value
otherwise.  The wide-window columns are not sentinel-converted: within the
wide window, an undefined wide similarity stays NaN. -/
theorem similarity_skip_sentinel (sim : List ℚ → List ℚ → ℚ) (rows : List FrameRow)
    (o : OutRow) (ho : o ∈ SimilarityComputer sim rows) :
    o.simAdj ≠ SimCell.jnum JsNum.nan ∧
    ((dot (featAt rows o.line1) (featAt rows o.line1) = 0 ∨
      dot (featAt rows o.line2) (featAt rows o.line2) = 0) →
      o.simAdj = SimCell.skip) ∧
    (¬(dot (featAt rows o.line1) (featAt rows o.line1) = 0 ∨
      dot (featAt rows o.line2) (featAt rows o.line2) = 0) →
      o.simAdj = SimCell.jnum (JsNum.num (sim (featAt rows o.line1) (featAt rows o.line2)))) ∧
    (o.line1 < rows.length - 3 →
      (dot (featAt rows (o.line1 - 1)) (featAt rows (o.line1 - 1)) = 0 ∨
       dot (featAt rows (o.line1 + 2)) (featAt rows (o.line1 + 2)) = 0) →
      o.avg1 = JsNum.nan) ∧
    (o.line1 < rows.length - 3 →
      (dot (featAt rows (o.line1 - 2)) (featAt rows (o.line1 - 2)) = 0 ∨
       dot (featAt rows (o.line1 + 3)) (featAt rows (o.line1 + 3)) = 0) →
      o.avg2 = JsNum.nan) := by
  rcases List.mem_map.1 ho with ⟨i, _, rfl⟩
  have hline : (enrichRow sim rows i).line1 = i := rfl
  have hline2 : (enrichRow sim rows i).line2 = i + 1 := rfl
  rw [hline, hline2]
  unfold enrichRow jsCosine
  by_cases hu : dot (featAt rows i) (featAt rows i) = 0 ∨
      dot (featAt rows (i + 1)) (featAt rows (i + 1)) = 0
  · refine ⟨?_, fun _ => ?_, fun hcon => absurd hu hcon, ?_, ?_⟩
    · simp [hu, skipConv]
    · simp [hu, skipConv]
    · intro hg hz
      simp only [hu, if_true, hg, hz, skipConv]
    · intro hg hz
      simp only [hu, if_true, hg, hz, skipConv]
  · refine ⟨?_, fun hcon => absurd hcon hu, fun _ => ?_, ?_, ?_⟩
    · simp [hu, skipConv]
    · simp [hu, skipConv]
    · intro hg hz
      simp only [hu, if_false, hg, if_true, hz, skipConv]
    · intro hg hz
      simp only [hu, if_false, hg, if_true, hz, skipConv]

/-- Witness for C7: with all-zero feature vectors every adjacent similarity
is undefined, and the first output row carries the SKIP sentinel. -/
theorem similarity_skip_sentinel_witness :
    ((⟨2, 2, 2, 3, .skip, .num 0, .num 0, "", ""⟩ : OutRow) ∈
      SimilarityComputer (fun _ _ => 0)
        [⟨0, 0, "", "", [0]⟩, ⟨1, 1, "", "", [0]⟩, ⟨2, 2, "", "", [0]⟩,
         ⟨3, 3, "", "", [0]⟩, ⟨4, 4, "", "", [0]⟩]) ∧
    (dot (featAt [⟨0, 0, "", "", [0]⟩, ⟨1, 1, "", "", [0]⟩, ⟨2, 2, "", "", [0]⟩,
         ⟨3, 3, "", "", [0]⟩, ⟨4, 4, "", "", [0]⟩] 2)
      (featAt [⟨0, 0, "", "", [0]⟩, ⟨1, 1, "", "", [0]⟩, ⟨2, 2, "", "", [0]⟩,
         ⟨3, 3, "", "", [0]⟩, ⟨4, 4, "", "", [0]⟩] 2) = 0 ∨
     dot (featAt [⟨0, 0, "", "", [0]⟩, ⟨1, 1, "", "", [0]⟩, ⟨2, 2, "", "", [0]⟩,
         ⟨3, 3, "", "", [0]⟩, ⟨4, 4, "", "", [0]⟩] 3)
      (featAt [⟨0, 0, "", "", [0]⟩, ⟨1, 1, "", "", [0]⟩, ⟨2, 2, "", "", [0]⟩,
         ⟨3, 3, "", "", [0]⟩, ⟨4, 4, "", "", [0]⟩] 3) = 0) ∧
    (⟨2, 2, 2, 3, .skip, .num 0, .num 0, "", ""⟩ : OutRow).simAdj = SimCell.skip := by
  have hmem : (⟨2, 2, 2, 3, .skip, .num 0, .num 0, "", ""⟩ : OutRow) ∈
      SimilarityComputer (fun _ _ => 0)
        [⟨0, 0, "", "", [0]⟩, ⟨1, 1, "", "", [0]⟩, ⟨2, 2, "", "", [0]⟩,
         ⟨3, 3, "", "", [0]⟩, ⟨4, 4, "", "", [0]⟩] := by
    norm_num [SimilarityComputer, List.range', enrichRow, jsCosine, dot, skipConv,
      featAt, rowAt, defFrameRow]
  have hz : (dot (featAt [(⟨0, 0, "", "", [0]⟩ : FrameRow), ⟨1, 1, "", "", [0]⟩,
         ⟨2, 2, "", "", [0]⟩, ⟨3, 3, "", "", [0]⟩, ⟨4, 4, "", "", [0]⟩] 2)
      (featAt [⟨0, 0, "", "", [0]⟩, ⟨1, 1, "", "", [0]⟩, ⟨2, 2, "", "", [0]⟩,
         ⟨3, 3, "", "", [0]⟩, ⟨4, 4, "", "", [0]⟩] 2) = 0 ∨
     dot (featAt [⟨0, 0, "", "", [0]⟩, ⟨1, 1, "", "", [0]⟩, ⟨2, 2, "", "", [0]⟩,
         ⟨3, 3, "", "", [0]⟩, ⟨4, 4, "", "", [0]⟩] 3)
      (featAt [⟨0, 0, "", "", [0]⟩, ⟨1, 1, "", "", [0]⟩, ⟨2, 2, "", "", [0]⟩,
         ⟨3, 3, "", "", [0]⟩, ⟨4, 4, "", "", [0]⟩] 3) = 0) := by
    left
    norm_num [dot, featAt, rowAt]
  exact ⟨hmem, hz,
    (similarity_skip_sentinel (fun _ _ => 0) _ _ hmem).2.1 hz⟩

lemma rule2Step_cases (l t : ℚ) (r : Row) (st : SegState) :
    rule2Step l t r st = st ∨
      rule2Step l t r st =
        { st with
            data := st.data ++ [⟨st.currentSceneTimeStamp, r.timestamp, st.description⟩],
            description := "",
            currentSceneTimeStamp := r.timestamp } := by
  unfold rule2Step
  split
  · split
    · right; rfl
    · left; rfl
  · left; rfl

lemma rule3Step_cases (l : ℚ) (r : Row) (st : SegState) :
    ((rule3Step l r st).data = st.data ∧
     (rule3Step l r st).currentSceneTimeStamp = st.currentSceneTimeStamp ∧
     (rule3Step l r st).description = st.description) ∨
      rule3Step l r st =
        { st with
            data := st.data ++ [⟨st.currentSceneTimeStamp, r.timestamp, st.description⟩],
            description := " ",
            currentSceneTimeStamp := r.timestamp,
            firstSkip := false } := by
  unfold rule3Step
  split
  · split
    · right; rfl
    · left; exact ⟨rfl, rfl, rfl⟩
  · left; exact ⟨rfl, rfl, rfl⟩

lemma joinK_single (r : Row) :
    joinK [r] = if cellEqTrue r.keyCell then "\n" ++ cellText r.descCell else "" := by
  simp [joinK]

lemma segRun_descOk (l t : ℚ) (all : List Row)
    (hsort : all.Pairwise fun a b => a.timestamp < b.timestamp) :
    ∀ (R P : List Row) (st : SegState), all = P ++ R →
      (∀ s ∈ st.data, DescOk all s) →
      (∃ p, (p = "" ∨ p = " ") ∧ st.description =
        p ++ joinK (P.filter fun x => decide (st.currentSceneTimeStamp < x.timestamp))) →
      (∀ x ∈ R, st.currentSceneTimeStamp < x.timestamp) →
      ∀ s ∈ (R.foldl (segStep l t) st).data, DescOk all s
  | [], P, st => fun _ hdata _ _ => by simpa using hdata
  | r :: R', P, st => by
      intro hsplit hdata hdesc hR
      rcases hdesc with ⟨p, hp, hd⟩
      have hpa := List.pairwise_append.1 (hsplit ▸ hsort)
      have hP_lt_r : ∀ x ∈ P, x.timestamp < r.timestamp :=
        fun x hx => hpa.2.2 x hx r (List.mem_cons_self _ _)
      have hr_lt_R : ∀ x ∈ R', r.timestamp < x.timestamp :=
        (List.pairwise_cons.1 hpa.2.1).1
      have hcur_r : st.currentSceneTimeStamp < r.timestamp := hR r (List.mem_cons_self _ _)
      have hsplit' : all = (P ++ [r]) ++ R' := by simpa using hsplit
      -- window of a record closing at `r` equals the processed-prefix filter
      have hwinK : ∀ c : ℚ, c < r.timestamp →
          List.filter (fun x => decide (c < x.timestamp ∧ x.timestamp ≤ r.timestamp)) all =
            List.filter (fun x => decide (c < x.timestamp)) (P ++ [r]) := by
        intro c _
        rw [hsplit', List.filter_append]
        have h1 : List.filter
            (fun x => decide (c < x.timestamp ∧ x.timestamp ≤ r.timestamp)) R' = [] :=
          List.filter_eq_nil_iff.2 fun x hx => by
            simp only [decide_eq_true_eq, not_and, not_le]
            exact fun _ => hr_lt_R x hx
        rw [h1, List.append_nil]
        apply List.filter_congr
        intro x hx
        rcases List.mem_append.1 hx with hxP | hxr
        · have hle : x.timestamp ≤ r.timestamp := (hP_lt_r x hxP).le
          simp [hle]
        · have hxr' : x = r := by simpa using hxr
          subst hxr'
          simp
      have hwin0 :
          List.filter (fun x =>
            decide (r.timestamp < x.timestamp ∧ x.timestamp ≤ r.timestamp)) all = [] :=
        List.filter_eq_nil_iff.2 fun x _ => by
          simp only [decide_eq_true_eq, not_and, not_le]
          exact fun h => h
      have hemptyPost :
          List.filter (fun x => decide (r.timestamp < x.timestamp)) (P ++ [r]) = [] :=
        List.filter_eq_nil_iff.2 fun x hx => by
          rcases List.mem_append.1 hx with hxP | hxr
          · simpa using not_lt.2 (hP_lt_r x hxP).le
          · have hxr' : x = r := by simpa using hxr
            subst hxr'
            simp
      -- the accumulated description after phase 1
      have hfilter1 :
          List.filter (fun x => decide (st.currentSceneTimeStamp < x.timestamp)) (P ++ [r]) =
            List.filter (fun x => decide (st.currentSceneTimeStamp < x.timestamp)) P ++ [r] := by
        rw [List.filter_append]
        simp [hcur_r]
      have hdesc1 : (descStep r st).description =
          p ++ joinK (List.filter
            (fun x => decide (st.currentSceneTimeStamp < x.timestamp)) (P ++ [r])) := by
        rw [hfilter1, joinK_append, joinK_single]
        by_cases hk : cellEqTrue r.keyCell = true
        · rw [descStep_key st hk, hd]
          simp [hk, String.append_assoc]
        · rw [descStep_not_key st (by simpa using hk), hd]
          simp [hk]
      have hDescOkNew : DescOk all
          ⟨st.currentSceneTimeStamp, r.timestamp, (descStep r st).description⟩ := by
        refine ⟨p, hp, ?_⟩
        show (descStep r st).description = p ++ joinK (List.filter _ all)
        rw [hwinK st.currentSceneTimeStamp hcur_r]
        exact hdesc1
      have hDescOkDeg : DescOk all ⟨r.timestamp, r.timestamp, ""⟩ := by
        refine ⟨"", Or.inl rfl, ?_⟩
        show ("" : String) = "" ++ joinK (List.filter _ all)
        rw [hwin0]
        simp [joinK]
      -- phase-by-phase case analysis
      have key : ∀ s ∈ (segStep l t st r).data, DescOk all s := by
        intro s hs
        rw [segStep, skipStep_data] at hs
        rcases rule2Step_cases l t r (descStep r st) with h2 | h2 <;>
          rcases rule3Step_cases l r (rule2Step l t r (descStep r st)) with h3 | h3
        · rw [h3.1, h2, descStep_data] at hs
          exact hdata s hs
        · rw [h3, h2] at hs
          simp only [descStep_data, descStep_cur] at hs
          rcases mem_append_single hs with hold | hnew
          · exact hdata s hold
          · rw [hnew]
            exact hDescOkNew
        · rw [h3.1, h2] at hs
          simp only [descStep_data, descStep_cur] at hs
          rcases mem_append_single hs with hold | hnew
          · exact hdata s hold
          · rw [hnew]
            exact hDescOkNew
        · rw [h3, h2] at hs
          simp only [descStep_data, descStep_cur] at hs
          rcases mem_append_single hs with hs2 | hnew3
          · rcases mem_append_single hs2 with hold | hnew
            · exact hdata s hold
            · rw [hnew]
              exact hDescOkNew
          · rw [hnew3]
            exact hDescOkDeg
      -- invariants for the recursive call
      have hdesc4 : ∃ q, (q = "" ∨ q = " ") ∧ (segStep l t st r).description =
          q ++ joinK ((P ++ [r]).filter fun x =>
            decide ((segStep l t st r).currentSceneTimeStamp < x.timestamp)) := by
        rw [segStep, skipStep_desc, skipStep_cur]
        rcases rule2Step_cases l t r (descStep r st) with h2 | h2 <;>
          rcases rule3Step_cases l r (rule2Step l t r (descStep r st)) with h3 | h3
        · rw [h3.2.2, h3.2.1, h2, descStep_cur]
          exact ⟨p, hp, hdesc1⟩
        · rw [h3, h2]
          refine ⟨" ", Or.inr rfl, ?_⟩
          simp only [descStep_cur]
          rw [hemptyPost]
          simp [joinK]
        · rw [h3.2.2, h3.2.1, h2]
          refine ⟨"", Or.inl rfl, ?_⟩
          rw [hemptyPost]
          simp [joinK]
        · rw [h3, h2]
          refine ⟨" ", Or.inr rfl, ?_⟩
          rw [hemptyPost]
          simp [joinK]
      have hR4 : ∀ x ∈ R', (segStep l t st r).currentSceneTimeStamp < x.timestamp := by
        intro x hx
        rw [segStep, skipStep_cur]
        rcases rule3Step_cur_cases l r (rule2Step l t r (descStep r st)) with h3 | h3 <;>
          rw [h3]
        · rcases rule2Step_cur_cases l t r (descStep r st) with h2 | h2 <;> rw [h2]
          · rw [descStep_cur]
            exact hR x (List.mem_cons_of_mem _ hx)
          · exact hr_lt_R x hx
        · exact hr_lt_R x hx
      exact segRun_descOk l t all hsort R' (P ++ [r]) (segStep l t st r)
        hsplit' key hdesc4 hR4

/-- Counterexample to C3 as stated: description accumulation happens before
boundary evaluation, so the record closing at timestamp 22 contains the
description of its own boundary row (timestamp 22) and not that of the row
at its start time 11 — the window is `(startTime, endTime]`, not
`[startTime, endTime)` as claimed. -/
theorem scene_description_window_cex :
    SceneSegmentation [] 10 (3/4)
      [⟨11, .num (1/10), 1/10, 1/10, .str "True", .str "A"⟩,
       ⟨22, .num (1/10), 1/10, 1/10, .str "True", .str "B"⟩] =
      [⟨0, 11, "\nA"⟩, ⟨11, 22, "\nB"⟩] ∧
    (⟨11, 22, "\nB"⟩ : Seg).description ≠
      joinK (List.filter (fun r => decide ((11 : ℚ) ≤ r.timestamp ∧ r.timestamp < 22))
        [⟨11, .num (1/10), 1/10, 1/10, .str "True", .str "A"⟩,
         ⟨22, .num (1/10), 1/10, 1/10, .str "True", .str "B"⟩]) := by
  constructor
  · norm_num [SceneSegmentation, initState, segStep, rule2Step, rule3Step, skipStep,
      descStep, averagecheck, cellIsSkip, cellLtNum, cellEqTrue, cellText]
    decide
  · have hf : List.filter (fun r => decide ((11 : ℚ) ≤ r.timestamp ∧ r.timestamp < 22))
        [(⟨11, .num (1/10), 1/10, 1/10, .str "True", .str "A"⟩ : Row),
         ⟨22, .num (1/10), 1/10, 1/10, .str "True", .str "B"⟩] =
        [⟨11, .num (1/10), 1/10, 1/10, .str "True", .str "A"⟩] := by
      norm_num [List.filter]
    rw [hf, joinK_single]
    simp [cellEqTrue, cellText]

/-- C3 amended: with strictly increasing positive timestamps, each emitted
record's description is the in-order newline-joined aggregation of the
key-frame rows whose timestamp lies in `(startTime, endTime]` — each
contribution prefixed by a newline — possibly behind a single-space prefix
left by a preceding skip-run reset; for each row the accumulation happens
before that row's boundary evaluation, which is what shifts the window to
include the boundary row itself and exclude the row at `startTime`. -/
theorem scene_description_window (l t : ℚ) (rows : List Row)
    (hsort : rows.Pairwise fun a b => a.timestamp < b.timestamp)
    (hpos : ∀ r ∈ rows, 0 < r.timestamp) :
    ∀ s ∈ SceneSegmentation [] l t rows, DescOk rows s := by
  intro s hs
  refine segRun_descOk l t rows hsort rows [] (initState []) rfl (by simp [initState])
    ⟨"", Or.inl rfl, by simp [initState, joinK]⟩ ?_ s hs
  intro x hx
  simpa [initState] using hpos x hx

/-- Witness for the amended C3 on a single-keyframe run: the one emitted
record's description `"\nA"` is the aggregation over `(0, 11]`. -/
theorem scene_description_window_witness :
    (([(⟨11, .num (1/10), 1/10, 1/10, .str "True", .str "A"⟩ : Row)]).Pairwise
      (fun a b => a.timestamp < b.timestamp) ∧
     (∀ r ∈ [(⟨11, .num (1/10), 1/10, 1/10, .str "True", .str "A"⟩ : Row)],
       0 < r.timestamp) ∧
     (⟨0, 11, "\nA"⟩ : Seg) ∈ SceneSegmentation [] 10 (3/4)
       [⟨11, .num (1/10), 1/10, 1/10, .str "True", .str "A"⟩]) ∧
    DescOk [⟨11, .num (1/10), 1/10, 1/10, .str "True", .str "A"⟩] ⟨0, 11, "\nA"⟩ := by
  have hrun : SceneSegmentation [] 10 (3/4)
      [⟨11, .num (1/10), 1/10, 1/10, .str "True", .str "A"⟩] = [⟨0, 11, "\nA"⟩] := by
    norm_num [SceneSegmentation, initState, segStep, rule2Step, rule3Step, skipStep,
      descStep, averagecheck, cellIsSkip, cellLtNum, cellEqTrue, cellText]
    decide
  have hmem : (⟨0, 11, "\nA"⟩ : Seg) ∈ SceneSegmentation [] 10 (3/4)
      [⟨11, .num (1/10), 1/10, 1/10, .str "True", .str "A"⟩] := by
    rw [hrun]
    exact List.mem_singleton.2 rfl
  have hpos : ∀ r ∈ [(⟨11, .num (1/10), 1/10, 1/10, .str "True", .str "A"⟩ : Row)],
      0 < r.timestamp := by
    intro r hr
    have h : r = ⟨11, .num (1/10), 1/10, 1/10, .str "True", .str "A"⟩ := by simpa using hr
    subst h
    norm_num
  exact ⟨⟨List.pairwise_singleton _ _, hpos, hmem⟩,
    scene_description_window 10 (3/4) _ (List.pairwise_singleton _ _) hpos _ hmem⟩
